import Mathlib

/-!
Verification of the SampSharp `plugin` adapter (src/src/SampSharp/plugin.h).

The repository material visible under src/ is the class declaration only:
four public operations (`host`, `start`, `config_validate`, `is_config_valid`)
and four private fields (`host_`, `locator_`, `configvalid_`, `config_`).
The member-function bodies live in a translation unit that is not part of
the supplied sources, so every behavioural definition below is modelled
from the specification text (spec.md) and says so in its doc comment.
-/

/-- Modelled from the spec: the Configuration Reader collaborator
(`ConfigReader config_` in plugin.h; its implementation is missing from
src/). It supplies named string values via key-to-string lookup; the
underlying configuration source is fixed for the lifetime of the reader. -/
structure ConfigReader where
  read : String → String

/-- Modelled from the spec: the Library Locator collaborator
(`liblocator locator_` in plugin.h; its implementation is missing from
src/). It resolves the filesystem path of the dynamic runtime library,
or fails to locate it (`none`). -/
structure liblocator where
  locate : Option String

/-- Modelled from the spec: the Managed Host (`gmhost` in gmhost.h, missing
from src/), the runtime bridge object constructed from the located library
path. Its internal behaviour is out of scope; only its identity as an
owned object matters to the adapter. -/
structure gmhost where
  libPath : String

/-- The adapter state: the four private fields declared in plugin.h.
The C++ raw pointer `gmhost* host_` is embedded as `Option gmhost`
(`none` is the null pointer). -/
structure plugin where
  host_ : Option gmhost
  locator_ : liblocator
  configvalid_ : Bool
  config_ : ConfigReader

/-- Accessor `gmhost *host() const` from plugin.h: returns the owned
Managed Host reference, null (`none`) if not yet started. -/
def plugin.host (p : plugin) : Option gmhost :=
  p.host_

/-- Accessor `bool is_config_valid() const` from plugin.h: returns the
last computed validity flag. -/
def plugin.is_config_valid (p : plugin) : Bool :=
  p.configvalid_

/-- Private helper `void config(const std::string &name, std::string &value) const`
from plugin.h: reads one named configuration value through the reader. -/
def plugin.config (p : plugin) (name : String) : String :=
  p.config_.read name

/-- Modelled from the spec: the required configuration keys read during
validation. The exact rule set is unspecified in the visible material;
the spec names presence/non-emptiness checks and the concrete scenario
involves the keys `gamemode0` and `rcon_password`. -/
def requiredKeys : List String :=
  ["gamemode0", "rcon_password"]

/-- Modelled from the spec: the validation rule applied by
`config_validate` — every required named value must be non-empty. -/
def cfgValid (c : ConfigReader) : Bool :=
  requiredKeys.all fun k => c.read k != ""

/-- Modelled from the spec: `bool config_validate()` (implementation
missing from src/). Reads the required named configuration values via
the Configuration Reader, applies the validation rules, sets and returns
the validity flag. Its only side effect is mutating `configvalid_`. -/
def plugin.config_validate (p : plugin) : Bool × plugin :=
  (cfgValid p.config_, { p with configvalid_ := cfgValid p.config_ })

/-- Modelled from the spec: `bool start()` (implementation missing from
src/). Resolves the runtime library path via the Library Locator,
constructs the Managed Host on success, and signals success or failure
by its boolean return. Construction does not proceed when validation
has not succeeded, as required by the data-model invariant that `host`
is non-null only when `config_valid` is true. -/
def plugin.start (p : plugin) : Bool × plugin :=
  if p.configvalid_ then
    match p.locator_.locate with
    | some path => (true, { p with host_ := some ⟨path⟩ })
    | none => (false, p)
  else
    (false, p)

/-- Modelled from the spec: the constructor `plugin()` (implementation
missing from src/). Initializes the library locator and configuration
reader; the host is null and the configuration has not been validated,
so the validity flag fails safe to false. -/
def plugin.init (loc : liblocator) (cfg : ConfigReader) : plugin :=
  { host_ := none, locator_ := loc, configvalid_ := false, config_ := cfg }

/-- One public operation of the adapter, for trace-based statements. -/
inductive Op where
  | opValidate
  | opStart
  | opHost
  | opIsConfigValid

/-- State transition of one operation: `config_validate` and `start`
update the state as defined above; the two const accessors leave the
state unchanged. -/
def stepPlugin (p : plugin) : Op → plugin
  | Op.opValidate => (p.config_validate).2
  | Op.opStart => (p.start).2
  | Op.opHost => p
  | Op.opIsConfigValid => p

/-- Run a sequence of operations from a state. -/
def runOps (p : plugin) : List Op → plugin
  | [] => p
  | o :: os => runOps (stepPlugin p o) os

/-- Whether some `start` call along the trace returned true, i.e. host
construction has been attempted and succeeded. -/
def startSucceeded (p : plugin) : List Op → Bool
  | [] => false
  | Op.opValidate :: os => startSucceeded (p.config_validate).2 os
  | Op.opStart :: os => (p.start).1 || startSucceeded (p.start).2 os
  | Op.opHost :: os => startSucceeded p os
  | Op.opIsConfigValid :: os => startSucceeded p os

/-- Whether an operation is a call to `config_validate`. -/
def isValidateOp : Op → Bool
  | Op.opValidate => true
  | _ => false

/-- The concrete configuration of the scenario in the spec: `gamemode0`
maps to `myscript` and the required key `rcon_password` maps to the
empty string (as does every other key). -/
def scenarioReader : ConfigReader :=
  ⟨fun k => if k = "gamemode0" then "myscript" else ""⟩

/-- A configuration reader on which every required value is non-empty. -/
def goodReader : ConfigReader :=
  ⟨fun _ => "value"⟩

/-- A locator that resolves the runtime library path. -/
def locSome : liblocator :=
  ⟨some "libcoreclr"⟩

/-- A locator that cannot locate the runtime library. -/
def locNone : liblocator :=
  ⟨none⟩

/-- C3: for every freshly constructed plugin adapter on which
`config_validate` has never been called, `is_config_valid` returns
false. -/
theorem init_is_config_valid_false (loc : liblocator) (cfg : ConfigReader) :
    (plugin.init loc cfg).is_config_valid = false :=
  rfl

/-- C6: `config_validate` is idempotent — with the underlying
configuration fixed, calling it twice in succession returns the same
boolean both times and leaves the adapter in the same state as one
call. -/
theorem config_validate_idempotent (p : plugin) :
    (((p.config_validate).2).config_validate).1 = (p.config_validate).1 ∧
      (((p.config_validate).2).config_validate).2 = (p.config_validate).2 :=
  ⟨rfl, rfl⟩

/-- C7: the only field `config_validate` mutates is the validity flag —
the host pointer, the library locator and the configuration reader are
unchanged, whatever boolean the call returns. -/
theorem config_validate_frame (p : plugin) :
    ((p.config_validate).2).host = p.host ∧
      ((p.config_validate).2).locator_ = p.locator_ ∧
      ((p.config_validate).2).config_ = p.config_ :=
  ⟨rfl, rfl, rfl⟩

/-- C8: `start` and `config_validate` are total functions on every
adapter state, and each reports its outcome only through its boolean
return value — the result is always one of the two booleans, with no
other escape path in the embedding. -/
theorem start_validate_total_bool (p : plugin) :
    ((p.start).1 = true ∨ (p.start).1 = false) ∧
      ((p.config_validate).1 = true ∨ (p.config_validate).1 = false) :=
  ⟨Bool.eq_false_or_eq_true (p.start).1,
    Bool.eq_false_or_eq_true (p.config_validate).1⟩

/-- C9: with the reader supplying `gamemode0 = myscript` and the
required key `rcon_password` mapping to the empty string,
`config_validate` returns false: an empty required value is invalid. -/
theorem scenario_empty_rcon_invalid (h : Option gmhost) (loc : liblocator)
    (v : Bool) :
    ((plugin.mk h loc v scenarioReader).config_validate).1 = false :=
  rfl

/-- C10: `host` and `is_config_valid` are observationally pure — as
operations they leave every field of the adapter unchanged, and two
consecutive calls to the same accessor with no intervening mutating
operation return equal results. -/
theorem accessors_pure (p : plugin) :
    stepPlugin p Op.opHost = p ∧
      stepPlugin p Op.opIsConfigValid = p ∧
      (stepPlugin p Op.opHost).host = p.host ∧
      (stepPlugin p Op.opIsConfigValid).is_config_valid = p.is_config_valid :=
  ⟨rfl, rfl, rfl, rfl⟩

/-- Helper: `start` leaves the locator, the validity flag and the
configuration reader unchanged, whatever branch it takes. -/
theorem start_frame (p : plugin) :
    ((p.start).2).locator_ = p.locator_ ∧
      ((p.start).2).configvalid_ = p.configvalid_ ∧
      ((p.start).2).config_ = p.config_ := by
  unfold plugin.start
  split
  · split
    · exact ⟨rfl, rfl, rfl⟩
    · exact ⟨rfl, rfl, rfl⟩
  · exact ⟨rfl, rfl, rfl⟩

/-- Helper: `start` on an unvalidated adapter fails and changes nothing. -/
theorem start_of_invalid (p : plugin) (hv : p.configvalid_ = false) :
    p.start = (false, p) := by
  unfold plugin.start
  rw [hv]
  rfl

/-- Helper: `start` on a validated adapter with a resolvable library path
succeeds and installs the constructed host. -/
theorem start_success (p : plugin) (path : String) (hv : p.configvalid_ = true)
    (hl : p.locator_.locate = some path) :
    p.start = (true, { p with host_ := some ⟨path⟩ }) := by
  unfold plugin.start
  rw [hv, hl]
  rfl

/-- Helper: `start` when the library cannot be located fails and changes
nothing. -/
theorem start_noloc (p : plugin) (hl : p.locator_.locate = none) :
    p.start = (false, p) := by
  unfold plugin.start
  rw [hl]
  split
  · rfl
  · rfl

/-- Helper: no operation changes the locator or the configuration reader. -/
theorem step_frame (p : plugin) (o : Op) :
    (stepPlugin p o).locator_ = p.locator_ ∧
      (stepPlugin p o).config_ = p.config_ := by
  cases o
  case opValidate => exact ⟨rfl, rfl⟩
  case opStart => exact ⟨(start_frame p).1, (start_frame p).2.2⟩
  case opHost => exact ⟨rfl, rfl⟩
  case opIsConfigValid => exact ⟨rfl, rfl⟩

/-- Helper: the locator and configuration reader are constant along any
run of operations. -/
theorem run_frame (ops : List Op) : ∀ p : plugin,
    (runOps p ops).locator_ = p.locator_ ∧
      (runOps p ops).config_ = p.config_ := by
  induction ops with
  | nil => intro p; exact ⟨rfl, rfl⟩
  | cons o os ih =>
      intro p
      have h := step_frame p o
      have h2 := ih (stepPlugin p o)
      exact ⟨h2.1.trans h.1, h2.2.trans h.2⟩

/-- State invariant carried along every run: the validity flag can only
be true when the configuration really validates, and the host can only
be present when the validity flag is true. -/
def adapterInv (p : plugin) : Prop :=
  (p.configvalid_ = true → cfgValid p.config_ = true) ∧
    (p.host_.isSome = true → p.configvalid_ = true)

/-- Helper: every single operation preserves the state invariant. -/
theorem step_adapterInv (p : plugin) (o : Op) (h : adapterInv p) :
    adapterInv (stepPlugin p o) := by
  obtain ⟨h1, h2⟩ := h
  cases o
  case opValidate =>
    refine ⟨?_, ?_⟩
    · intro hv; exact hv
    · intro hh; exact h1 (h2 hh)
  case opStart =>
    show adapterInv (p.start).2
    cases hv : p.configvalid_
    · rw [start_of_invalid p hv]
      exact ⟨h1, h2⟩
    · cases hl : p.locator_.locate with
      | none =>
          rw [start_noloc p hl]
          exact ⟨h1, h2⟩
      | some path =>
          rw [start_success p path hv hl]
          refine ⟨?_, ?_⟩
          · intro hv'; exact h1 hv'
          · intro _; exact hv
  case opHost => exact ⟨h1, h2⟩
  case opIsConfigValid => exact ⟨h1, h2⟩

/-- Helper: every run of operations preserves the state invariant. -/
theorem run_adapterInv (ops : List Op) : ∀ p : plugin,
    adapterInv p → adapterInv (runOps p ops) := by
  induction ops with
  | nil => intro p h; exact h
  | cons o os ih => intro p h; exact ih (stepPlugin p o) (step_adapterInv p o h)

/-- Helper: a freshly constructed adapter satisfies the state invariant. -/
theorem init_adapterInv (loc : liblocator) (cfg : ConfigReader) :
    adapterInv (plugin.init loc cfg) :=
  ⟨fun h => Bool.noConfusion h, fun h => Bool.noConfusion h⟩

/-- Helper: one `start` call leaves the host present exactly when it was
already present or the call itself succeeded. -/
theorem start_host_isSome (p : plugin) :
    ((p.start).2).host_.isSome = (p.host_.isSome || (p.start).1) := by
  cases hv : p.configvalid_
  · rw [start_of_invalid p hv]
    simp
  · cases hl : p.locator_.locate with
    | none =>
        rw [start_noloc p hl]
        simp
    | some path =>
        rw [start_success p path hv hl]
        simp

/-- Helper: after a run of operations the host is present exactly when
it was already present or some `start` call along the run succeeded. -/
theorem run_host_isSome (ops : List Op) : ∀ p : plugin,
    (runOps p ops).host_.isSome = (p.host_.isSome || startSucceeded p ops) := by
  induction ops with
  | nil => intro p; exact (Bool.or_false _).symm
  | cons o os ih =>
      intro p
      cases o
      case opValidate => exact ih (p.config_validate).2
      case opStart =>
          have h1 := ih (p.start).2
          have h2 := start_host_isSome p
          show (runOps (p.start).2 os).host_.isSome =
            (p.host_.isSome || ((p.start).1 || startSucceeded (p.start).2 os))
          rw [h1, h2, Bool.or_assoc]
      case opHost => exact ih p
      case opIsConfigValid => exact ih p

/-- C1: in every state reachable from the constructor by any sequence
of operations, the host pointer is non-null exactly when the validity
flag is true and some `start` call along the trace has succeeded; the
empty trace covers the state right after the constructor. -/
theorem host_iff_valid_and_started (loc : liblocator) (cfg : ConfigReader)
    (ops : List Op) :
    ((runOps (plugin.init loc cfg) ops).host).isSome = true ↔
      ((runOps (plugin.init loc cfg) ops).is_config_valid = true ∧
        startSucceeded (plugin.init loc cfg) ops = true) := by
  have hinv := run_adapterInv ops (plugin.init loc cfg) (init_adapterInv loc cfg)
  have hhost : (runOps (plugin.init loc cfg) ops).host_.isSome =
      startSucceeded (plugin.init loc cfg) ops := by
    have h := run_host_isSome ops (plugin.init loc cfg)
    simpa [plugin.init] using h
  constructor
  · intro h
    have h' : (runOps (plugin.init loc cfg) ops).host_.isSome = true := h
    exact ⟨hinv.2 h', hhost.symm.trans h'⟩
  · intro h
    show (runOps (plugin.init loc cfg) ops).host_.isSome = true
    rw [hhost]
    exact h.2

/-- Helper: once the validity flag is true, a run containing no
`config_validate` call leaves it true. -/
theorem run_keeps_valid (ops : List Op) : ∀ p : plugin,
    p.configvalid_ = true → ops.all (fun o => !(isValidateOp o)) = true →
    (runOps p ops).configvalid_ = true := by
  induction ops with
  | nil => intro p hv _; exact hv
  | cons o os ih =>
      intro p hv hall
      rw [List.all_cons, Bool.and_eq_true] at hall
      cases o
      case opValidate => exact Bool.noConfusion hall.1
      case opStart =>
          exact ih (p.start).2 (((start_frame p).2.1).trans hv) hall.2
      case opHost => exact ih p hv hall.2
      case opIsConfigValid => exact ih p hv hall.2

/-- C5: once `config_validate` has returned true, every later
observation of `is_config_valid` along a trace that contains no further
`config_validate` call yields true — neither `start` nor the accessors
flip the validity flag. -/
theorem valid_persists_without_revalidate (p : plugin) (ops : List Op)
    (hv : (p.config_validate).1 = true)
    (hops : ops.all (fun o => !(isValidateOp o)) = true) :
    (runOps (p.config_validate).2 ops).is_config_valid = true := by
  have h2 : ((p.config_validate).2).configvalid_ = true := hv
  exact run_keeps_valid ops (p.config_validate).2 h2 hops

/-- Witness for C5 at a concrete adapter and trace. -/
theorem valid_persists_without_revalidate_witness :
    ((plugin.init locSome goodReader).config_validate).1 = true ∧
      ([Op.opStart, Op.opHost].all (fun o => !(isValidateOp o)) = true) ∧
      (runOps ((plugin.init locSome goodReader).config_validate).2
        [Op.opStart, Op.opHost]).is_config_valid = true :=
  ⟨rfl, rfl, valid_persists_without_revalidate (plugin.init locSome goodReader)
    [Op.opStart, Op.opHost] rfl rfl⟩

/-- Helper: from a state whose flag is false, whose configuration does
not validate and whose host is null, every run keeps all three facts. -/
theorem run_stuck_invalid (ops : List Op) : ∀ p : plugin,
    p.configvalid_ = false → cfgValid p.config_ = false → p.host_ = none →
    (runOps p ops).configvalid_ = false ∧
      cfgValid (runOps p ops).config_ = false ∧
      (runOps p ops).host_ = none := by
  induction ops with
  | nil => intro p h1 h2 h3; exact ⟨h1, h2, h3⟩
  | cons o os ih =>
      intro p h1 h2 h3
      cases o
      case opValidate => exact ih (p.config_validate).2 h2 h2 h3
      case opStart =>
          have hs : (p.start).2 = p := by rw [start_of_invalid p h1]
          show (runOps (p.start).2 os).configvalid_ = false ∧
            cfgValid (runOps (p.start).2 os).config_ = false ∧
            (runOps (p.start).2 os).host_ = none
          rw [hs]
          exact ih p h1 h2 h3
      case opHost => exact ih p h1 h2 h3
      case opIsConfigValid => exact ih p h1 h2 h3

/-- C4: in every reachable state, after a call to `config_validate`
that returned false, `host` returns null — and stays null along any
continuation of the trace, so host construction does not proceed when
validation fails. -/
theorem host_none_after_invalid_validate (loc : liblocator) (cfg : ConfigReader)
    (ops ops' : List Op)
    (hf : ((runOps (plugin.init loc cfg) ops).config_validate).1 = false) :
    (runOps ((runOps (plugin.init loc cfg) ops).config_validate).2 ops').host =
      none := by
  have hinv := run_adapterInv ops (plugin.init loc cfg) (init_adapterInv loc cfg)
  have hcfg : cfgValid (runOps (plugin.init loc cfg) ops).config_ = false := hf
  have hhost : (runOps (plugin.init loc cfg) ops).host_ = none := by
    cases hh : (runOps (plugin.init loc cfg) ops).host_ with
    | none => rfl
    | some g =>
        have hsome : (runOps (plugin.init loc cfg) ops).host_.isSome = true := by
          rw [hh]
          rfl
        have hv := hinv.1 (hinv.2 hsome)
        rw [hcfg] at hv
        exact Bool.noConfusion hv
  have h := run_stuck_invalid ops' ((runOps (plugin.init loc cfg) ops).config_validate).2
    hf hcfg hhost
  exact h.2.2

/-- Witness for C4 at a concrete adapter and trace. -/
theorem host_none_after_invalid_validate_witness :
    ((runOps (plugin.init locSome scenarioReader) []).config_validate).1 = false ∧
      (runOps ((runOps (plugin.init locSome scenarioReader) []).config_validate).2
        [Op.opStart]).host = none :=
  ⟨rfl,
    host_none_after_invalid_validate locSome scenarioReader [] [Op.opStart] rfl⟩

/-- Helper: when the locator cannot resolve the library, no `start`
call along any trace ever succeeds. -/
theorem startSucceeded_none (ops : List Op) : ∀ p : plugin,
    p.locator_.locate = none → startSucceeded p ops = false := by
  induction ops with
  | nil => intro p _; rfl
  | cons o os ih =>
      intro p hl
      cases o
      case opValidate => exact ih (p.config_validate).2 hl
      case opStart =>
          have hs := start_noloc p hl
          show ((p.start).1 || startSucceeded (p.start).2 os) = false
          rw [hs]
          exact ih p hl
      case opHost => exact ih p hl
      case opIsConfigValid => exact ih p hl

/-- C2: calling `start` right after a `config_validate` that returned
true, with the locator resolving the library path, returns true and
leaves the host non-null; and in every reachable state of an adapter
whose locator cannot locate the library, `start` returns false and
leaves the host null. -/
theorem start_after_validate_and_locate (p : plugin) (path : String)
    (loc : liblocator) (cfg : ConfigReader) (ops : List Op) :
    ((p.config_validate).1 = true → p.locator_.locate = some path →
      (((p.config_validate).2).start).1 = true ∧
        ((((p.config_validate).2).start).2).host ≠ none) ∧
    (loc.locate = none →
      ((runOps (plugin.init loc cfg) ops).start).1 = false ∧
        (((runOps (plugin.init loc cfg) ops).start).2).host = none) := by
  constructor
  · intro hv hl
    have hv' : ((p.config_validate).2).configvalid_ = true := hv
    have hl' : ((p.config_validate).2).locator_.locate = some path := hl
    rw [start_success ((p.config_validate).2) path hv' hl']
    refine ⟨rfl, ?_⟩
    intro h
    exact Option.noConfusion h
  · intro hl
    have hlrun : (runOps (plugin.init loc cfg) ops).locator_.locate = none := by
      rw [(run_frame ops (plugin.init loc cfg)).1]
      exact hl
    have hs := start_noloc (runOps (plugin.init loc cfg) ops) hlrun
    have hsucc := startSucceeded_none ops (plugin.init loc cfg) hl
    have hisSome : (runOps (plugin.init loc cfg) ops).host_.isSome = false := by
      rw [run_host_isSome ops (plugin.init loc cfg), hsucc]
      rfl
    have hhost : (runOps (plugin.init loc cfg) ops).host_ = none := by
      cases hh : (runOps (plugin.init loc cfg) ops).host_ with
      | none => rfl
      | some g =>
          rw [hh] at hisSome
          exact Bool.noConfusion hisSome
    rw [hs]
    exact ⟨rfl, hhost⟩

/-- Witness for C2 at concrete adapters. -/
theorem start_after_validate_and_locate_witness :
    (((plugin.init locSome goodReader).config_validate).1 = true ∧
      (plugin.init locSome goodReader).locator_.locate = some "libcoreclr" ∧
      ((((plugin.init locSome goodReader).config_validate).2).start).1 = true ∧
      (((((plugin.init locSome goodReader).config_validate).2).start).2).host ≠
        none) ∧
    (locNone.locate = none ∧
      ((runOps (plugin.init locNone goodReader) [Op.opValidate]).start).1 = false ∧
      (((runOps (plugin.init locNone goodReader) [Op.opValidate]).start).2).host =
        none) := by
  have h := start_after_validate_and_locate (plugin.init locSome goodReader)
    "libcoreclr" locNone goodReader [Op.opValidate]
  have h1 := h.1 rfl rfl
  have h2 := h.2 rfl
  exact ⟨⟨rfl, rfl, h1.1, h1.2⟩, rfl, h2.1, h2.2⟩
